import Mathlib

/-!
Verification development for the `xtask` developer-automation tool
(file `rust/xtask/src/main.rs` of the RustyGodot repository).

The tool is an imperative command-line program whose observable behaviour
is filesystem mutation, network downloads, and subprocess invocations.
We shallow-embed it as follows:

* a filesystem `FS` is a finite association list of files (path, content)
  together with a list of directories; paths are lists of path segments;
* external effects (HTTP GET, subprocess runs, permission changes) are
  recorded in an explicit trace list;
* each fallible procedure of the source becomes a function from an
  environment (host OS, outcome of the external build tool, outcome of the
  rename system call, contents of the downloaded archives) and an initial
  filesystem to an `XtaskResult`: the final filesystem, the effect trace,
  and `none` or `some message` mirroring `Ok` / `Err` of `anyhow::Result`.

Subprocesses (cargo, the Godot binary, xattr) are external collaborators:
their own filesystem effects are not modelled, only the fact that they ran
and whether they succeeded.  String helpers (`splitPath`, `strHasSub`,
`strEndsWith`) are written by structural recursion over the character list
so that every definition evaluates inside the kernel.
-/

namespace Xtask

/-- A filesystem path, as a list of path segments. -/
abbrev FPath := List String

/-- Split a string on the separator character, mirroring how
`Path::join` in Rust treats a multi-component relative path string. -/
def splitPathAux : List Char → List Char → List String
  | [], acc => [String.mk acc.reverse]
  | c :: rest, acc =>
    if c = '/' then String.mk acc.reverse :: splitPathAux rest []
    else splitPathAux rest (c :: acc)

/-- Split a `/`-separated string into path segments. -/
def splitPath (s : String) : FPath := splitPathAux s.data []

/-- Render a path as a string, for error messages (Rust prints paths
with `{:?}`; the exact rendering is a modelling choice, the claims only
need the message to name the path). -/
def pathToString (p : FPath) : String := String.intercalate "/" p

/-- Does `needle` occur as a contiguous run inside `hay`? -/
def listHasSub (needle : List Char) : List Char → Bool
  | [] => needle.isPrefixOf []
  | c :: rest => needle.isPrefixOf (c :: rest) || listHasSub needle rest

/-- Substring test on strings, by structural recursion (evaluates in the
kernel, unlike the `String.Pos`-based library functions). -/
def strHasSub (hay needle : String) : Bool := listHasSub needle.data hay.data

/-- Suffix test on strings. -/
def strEndsWith (s suffix0 : String) : Bool := suffix0.data.isSuffixOf s.data

/-- The modelled filesystem: files as an association list from path to
content, plus a list of existing directories. -/
structure FS where
  files : List (FPath × String)
  dirs : List FPath
deriving DecidableEq

/-- The empty filesystem. -/
def FS.empty : FS := { files := [], dirs := [] }

/-- Does a file exist at `p`? -/
def FS.fileExists (fs : FS) (p : FPath) : Bool := fs.files.any (fun e => e.1 == p)

/-- Does a directory exist at `p`? -/
def FS.dirExists (fs : FS) (p : FPath) : Bool := fs.dirs.any (fun d => d == p)

/-- Rust `Path::exists`: a file or a directory is present at `p`. -/
def FS.pathExists (fs : FS) (p : FPath) : Bool := fs.fileExists p || fs.dirExists p

/-- Content of the file at `p`, when present. -/
def FS.readFile (fs : FS) (p : FPath) : Option String :=
  (fs.files.find? (fun e => e.1 == p)).map (fun e => e.2)

/-- `fs::write` / `File::create` + `write_all`: create or overwrite the
file at `p` with content `c`. -/
def FS.writeFile (fs : FS) (p : FPath) (c : String) : FS :=
  { fs with files := (p, c) :: fs.files.filter (fun e => !(e.1 == p)) }

/-- Record a directory at `p` (no-op when already present). -/
def FS.addDir (fs : FS) (p : FPath) : FS :=
  if fs.dirExists p then fs else { fs with dirs := p :: fs.dirs }

/-- `fs::create_dir`: create the single directory `p`. -/
def FS.createDir (fs : FS) (p : FPath) : FS := fs.addDir p

/-- All initial segments of a path (`[]`, first segment, ...), used to
create intermediate directories. -/
def initialSegments : FPath → List FPath
  | [] => [[]]
  | a :: rest => [] :: (initialSegments rest).map (fun q => a :: q)

/-- `fs::create_dir_all`: create `p` together with every ancestor. -/
def FS.createDirAll (fs : FS) (p : FPath) : FS :=
  (initialSegments p).foldl (fun acc q => acc.addDir q) fs

/-- `fs::remove_dir_all`: delete the subtree rooted at `p` (every file
and directory having `p` as a path-segment prefix, `p` itself included). -/
def FS.removeDirAll (fs : FS) (p : FPath) : FS :=
  { files := fs.files.filter (fun e => !(p.isPrefixOf e.1)),
    dirs := fs.dirs.filter (fun d => !(p.isPrefixOf d)) }

/-- `fs::rename` of a directory: every entry under `src` (including `src`
itself) is re-rooted at `dst`. -/
def FS.renameDir (fs : FS) (src dst : FPath) : FS :=
  { files := fs.files.map (fun e =>
      if src.isPrefixOf e.1 then (dst ++ e.1.drop src.length, e.2) else e),
    dirs := fs.dirs.map (fun d =>
      if src.isPrefixOf d then dst ++ d.drop src.length else d) }

/-- `fs_extra::dir::copy` with `content_only(true)`: every entry strictly
under `src` is duplicated under `dst`; the originals stay in place. -/
def FS.copyDirContent (fs : FS) (src dst : FPath) : FS :=
  { files := fs.files ++
      (fs.files.filter (fun e => src.isPrefixOf e.1 && !(e.1.length == src.length))).map
        (fun e => (dst ++ e.1.drop src.length, e.2)),
    dirs := fs.dirs ++
      (fs.dirs.filter (fun d => src.isPrefixOf d && !(d.length == src.length))).map
        (fun d => dst ++ d.drop src.length) }

/-- Extract one archive member (relative file path and content) below
`target`, creating the intermediate directories the member needs. -/
def FS.extractEntry (fs : FS) (target : FPath) (e : FPath × String) : FS :=
  let full := target ++ e.1
  let withDirs :=
    ((initialSegments full).filter
        (fun q => target.isPrefixOf q && !(q.length == full.length))).foldl
      (fun acc q => acc.addDir q) fs
  withDirs.writeFile full e.2

/-- `zip::ZipArchive::extract`: write every archive member below `target`. -/
def FS.extractArchive (fs : FS) (target : FPath) (entries : List (FPath × String)) : FS :=
  entries.foldl (fun acc e => acc.extractEntry target e) fs

/-- Externally observable effects of a run. -/
inductive Effect where
  | httpGet (url : String)
  | runProcess (cmd : String)
  | setPerms (path : FPath)
deriving DecidableEq

/-- Is this effect a network request? -/
def Effect.isHttp : Effect → Bool
  | .httpGet _ => true
  | _ => false

/-- The host operating system, as selected by the `cfg!(target_os = ...)`
compile-time branching of the source.  `other` covers every target that is
none of the three recognized systems. -/
inductive HostOS where
  | windows
  | macos
  | linux
  | other (name : String)
deriving DecidableEq

/-- The environment of a run: host OS, the per-OS standard directories,
the outcomes of the external collaborators (cargo exit status, whether
`fs::rename` succeeds, e.g. it fails across storage devices), and the
members of the two downloaded archives. -/
structure Env where
  host : HostOS
  homeDir : FPath
  dataDir : FPath
  dataLocalDir : FPath
  cargoSucceeds : Bool
  renameWorks : Bool
  editorArchive : List (FPath × String)
  templatesArchive : List (FPath × String)
deriving DecidableEq

/-- Outcome of one procedure: final filesystem, effect trace, and the
error message when the procedure bailed (`none` mirrors `Ok(())`). -/
structure XtaskResult where
  fs : FS
  trace : List Effect
  err : Option String
deriving DecidableEq

/-- `const GODOT_VERSION`. -/
def GODOT_VERSION : String := "4.6-stable"

/-- `const GODOT_VERSION_FULL`. -/
def GODOT_VERSION_FULL : String := "4.6.0-stable"

/-- `const BASE_URL`. -/
def BASE_URL : String := "https://github.com/godotengine/godot/releases/download"

/-- `get_os_info`: per-OS archive suffix and in-archive executable path
(windows / macos / everything else treated as linux). -/
def get_os_info (host : HostOS) : String × String :=
  if host = HostOS.windows then
    ("win64.exe.zip", "Godot_v4.6-stable_win64.exe")
  else if host = HostOS.macos then
    ("macos.universal.zip", "Godot.app/Contents/MacOS/Godot")
  else
    ("linux.x86_64.zip", "Godot_v4.6-stable_linux.x86_64")

/-- `get_platform_export_name`: per-OS export preset display name and
packaged-output file extension. -/
def get_platform_export_name (host : HostOS) : String × String :=
  if host = HostOS.windows then
    ("Windows Desktop", ".exe")
  else if host = HostOS.macos then
    ("macOS", ".zip")
  else
    ("Linux", "")

/-- `get_godot_templates_dir`: the platform-standard export-template
installation directory. -/
def get_godot_templates_dir (env : Env) : FPath :=
  if env.host = HostOS.macos then
    env.homeDir ++ ["Library", "Application Support", "Godot", "export_templates"]
  else if env.host = HostOS.windows then
    env.dataDir ++ ["Godot", "export_templates"]
  else
    env.dataLocalDir ++ ["godot", "export_templates"]

/-- The provisioned engine executable path: `.godot_bin` joined with the
in-archive executable relative path of `get_os_info`. -/
def godot_bin_path (env : Env) (root : FPath) : FPath :=
  root ++ [".godot_bin"] ++ splitPath (get_os_info env.host).2

/-- The per-version template directory whose existence makes `setup_godot`
skip the template download. -/
def templates_version_dir (env : Env) : FPath :=
  get_godot_templates_dir env ++ [GODOT_VERSION_FULL]

/-- The scratch directory templates are extracted into. -/
def tmp_templates_dir (root : FPath) : FPath :=
  root ++ [".godot_bin", "tmp_templates"]

/-- First stage of `setup_godot` (lines 77-95 of the source): create
`.godot_bin` when absent and extract the downloaded editor archive
into it. -/
def setup_editor_step (env : Env) (root : FPath) (fs0 : FS) : FS :=
  let bin_dir := root ++ [".godot_bin"]
  (if fs0.pathExists bin_dir then fs0 else fs0.createDir bin_dir).extractArchive
    bin_dir env.editorArchive

/-- Template-extraction stage of `setup_godot` (lines 150-159 of the
source): clear a stale scratch directory, extract the templates archive
into it, and `create_dir_all` the standard template directory. -/
def setup_templates_stage (env : Env) (root : FPath) (fs : FS) : FS :=
  let tmp_extract := tmp_templates_dir root
  (((if fs.pathExists tmp_extract then fs.removeDirAll tmp_extract else fs).extractArchive
      tmp_extract env.templatesArchive).createDirAll (get_godot_templates_dir env))

/-- `setup_godot`: download and unpack the editor, fix permissions, then
install the export templates unless the version directory already exists;
template installation renames the extracted `templates` folder into place,
falling back to a recursive copy when the rename fails, and removes the
scratch directory.  (The quotes of the source's error message
`Expected 'templates' folder` are elided.) -/
def setup_godot (env : Env) (root : FPath) (fs0 : FS) : XtaskResult :=
  let zip_suffix := (get_os_info env.host).1
  let fs2 := setup_editor_step env root fs0
  let url := BASE_URL ++ "/" ++ GODOT_VERSION ++ "/Godot_v" ++ GODOT_VERSION ++ "_" ++ zip_suffix
  let tr1 : List Effect := [Effect.httpGet url]
  let binary_path := godot_bin_path env root
  if fs2.pathExists binary_path = false then
    { fs := fs2, trace := tr1,
      err := some ("Extracted binary not found at " ++ pathToString binary_path) }
  else
    let tr2 := tr1 ++ (if env.host = HostOS.windows then [] else [Effect.setPerms binary_path]) ++
      (if env.host = HostOS.macos then
        [Effect.runProcess "xattr -d com.apple.quarantine"] else [])
    let version_dir := templates_version_dir env
    if fs2.pathExists version_dir then
      { fs := fs2, trace := tr2, err := none }
    else
      let url2 := BASE_URL ++ "/" ++ GODOT_VERSION ++ "/Godot_v" ++ GODOT_VERSION ++
        "_export_templates.tpz"
      let tr3 := tr2 ++ [Effect.httpGet url2]
      let tmp_extract := tmp_templates_dir root
      let fs5 := setup_templates_stage env root fs2
      let extracted_folder := tmp_extract ++ ["templates"]
      if fs5.pathExists extracted_folder = false then
        { fs := fs5, trace := tr3, err := some "Expected templates folder in .tpz archive" }
      else
        let fs6 :=
          if env.renameWorks then fs5.renameDir extracted_folder version_dir
          else (fs5.createDirAll version_dir).copyDirContent extracted_folder version_dir
        { fs := fs6.removeDirAll tmp_extract, trace := tr3, err := none }

/-- The content `generate_gdextension_file` writes: the source's format
literal after the `.trim()` it applies (the literal's leading and trailing
newline removed; written out explicitly because the embedding keeps every
definition kernel-evaluable). -/
def gdextension_content (c : String) : String :=
  "[configuration]\n" ++
  "entry_symbol = \"gdext_rust_init\"\n" ++
  "compatibility_minimum = \"4.1\"\n" ++
  "\n" ++
  "[libraries]\n" ++
  "linux.debug.x86_64 = \"res://bin/" ++ c ++ "/linux/lib" ++ c ++ ".so\"\n" ++
  "linux.release.x86_64 = \"res://bin/" ++ c ++ "/linux/lib" ++ c ++ ".so\"\n" ++
  "macos.debug.arm64 = \"res://bin/" ++ c ++ "/macos/arm64/lib" ++ c ++ ".dylib\"\n" ++
  "macos.release.arm64 = \"res://bin/" ++ c ++ "/macos/arm64/lib" ++ c ++ ".dylib\"\n" ++
  "windows.debug.x86_64 = \"res://bin/" ++ c ++ "/windows/" ++ c ++ ".dll\"\n" ++
  "windows.release.x86_64 = \"res://bin/" ++ c ++ "/windows/" ++ c ++ ".dll\""

/-- `generate_gdextension_file`: unconditionally (over)write
`{crate_name}.gdextension` in the game directory. -/
def generate_gdextension_file (game_dir : FPath) (crate_name : String) (fs : FS) : FS :=
  fs.writeFile (game_dir ++ [crate_name ++ ".gdextension"]) (gdextension_content crate_name)

/-- The per-OS branch of `build_and_install` (lines 228-236 of the
source): output extension, artifact base name and destination directory;
`none` is the `Unsupported OS` bail-out. -/
def build_selection (host : HostOS) (output_dir : FPath) : Option (String × String × FPath) :=
  if host = HostOS.windows then some ("dll", "game", output_dir ++ ["windows"])
  else if host = HostOS.linux then some ("so", "libgame", output_dir ++ ["linux"])
  else if host = HostOS.macos then some ("dylib", "libgame", output_dir ++ ["macos", "arm64"])
  else none

/-- State of `build_and_install` after the first `create_dir_all` block
(lines 222-226 of the source): `game/bin/game` created when absent. -/
def build_output_root_state (root : FPath) (fs0 : FS) : FS :=
  let output_dir := root ++ ["game", "bin", "game"]
  if fs0.pathExists output_dir then fs0 else fs0.createDirAll output_dir

/-- State of `build_and_install` after the second `create_dir_all` block
(lines 238-240 of the source): the per-OS destination directory created
when absent.  This is the state at which the artifact-existence check of
line 246 runs. -/
def build_dest_state (root : FPath) (fs0 : FS) (output_dir2 : FPath) : FS :=
  let fs1 := build_output_root_state root fs0
  if fs1.pathExists output_dir2 then fs1 else fs1.createDirAll output_dir2

/-- `build_and_install`: run `cargo build`, bail on failure; create the
output directories; per-OS artifact selection (bailing on an unsupported
OS); copy the artifact when present and regenerate the descriptor file,
otherwise bail naming the expected artifact path. -/
def build_and_install (env : Env) (root : FPath) (release : Bool) (fs0 : FS) : XtaskResult :=
  let tr1 : List Effect :=
    [Effect.runProcess (if release then "cargo build --release" else "cargo build")]
  if env.cargoSucceeds = false then
    { fs := fs0, trace := tr1, err := some "Cargo build failed" }
  else
    let target_dir := root ++ ["target", if release then "release" else "debug"]
    let output_dir := root ++ ["game", "bin", "game"]
    let fs1 := build_output_root_state root fs0
    match build_selection env.host output_dir with
    | none => { fs := fs1, trace := tr1, err := some "Unsupported OS" }
    | some (ext, crate_name, output_dir2) =>
      let fs2 := build_dest_state root fs0 output_dir2
      let src := target_dir ++ [crate_name ++ "." ++ ext]
      let dst := output_dir2 ++ [crate_name ++ "." ++ ext]
      if fs2.pathExists src then
        let fs3 := fs2.writeFile dst ((fs2.readFile src).getD "")
        let fs4 := generate_gdextension_file (root ++ ["game"]) "game" fs3
        { fs := fs4, trace := tr1, err := none }
      else
        { fs := fs2, trace := tr1, err := some ("Failed to find artifact: " ++ pathToString src) }

/-- The minimal default `project.godot` content written by `run_godot`. -/
def project_godot_content : String :=
  "; Engine configuration file.\n" ++
  "config_version=5\n" ++
  "\n" ++
  "[application]\n" ++
  "config/name=\"My Rust Game\"\n" ++
  "config/features=PackedStringArray(\"4.6\", \"Forward Plus\")\n" ++
  "config/icon=\"res://icon.svg\"\n" ++
  "\n" ++
  "[dotnet]\n" ++
  "project/assembly_name=\"My Rust Game\"\n"

/-- State of `run_godot` after its game-directory block (lines 268-271 of
the source): create the game directory when absent.  This is the state at
which the `project.godot` existence check runs. -/
def run_game_dir_state (root : FPath) (fs0 : FS) : FS :=
  let game_dir := root ++ ["game"]
  if fs0.pathExists game_dir then fs0 else fs0.createDirAll game_dir

/-- `run_godot`: bail when the provisioned executable is absent (the
message directs the operator to run setup; the source's quotes around
`cargo xtask setup` are elided); create the game directory when missing;
write the minimal `project.godot` when missing; then launch the engine
(canonicalization of the two paths cannot fail at this point: both were
just checked or created). -/
def run_godot (env : Env) (root : FPath) (editor : Bool) (fs0 : FS) : XtaskResult :=
  let godot_exe := godot_bin_path env root
  if fs0.pathExists godot_exe = false then
    { fs := fs0, trace := [],
      err := some "Godot executable not found. Run cargo xtask setup first." }
  else
    let game_dir := root ++ ["game"]
    let fs1 := run_game_dir_state root fs0
    let project_file := game_dir ++ ["project.godot"]
    let fs2 :=
      if fs1.pathExists project_file then fs1
      else fs1.writeFile project_file project_godot_content
    let cmd := (if editor then "godot -e --path " else "godot --path ") ++ pathToString game_dir
    { fs := fs2, trace := [Effect.runProcess cmd], err := none }

/-- The content `ensure_export_presets` writes: the source's format
literal after its `.trim()` (leading and trailing newline removed). -/
def export_presets_content (platform_name : String) : String :=
  "[preset.0]\n" ++
  "\n" ++
  "name=\"" ++ platform_name ++ "\"\n" ++
  "platform=\"" ++ platform_name ++ "\"\n" ++
  "runnable=true\n" ++
  "custom_features=\"\"\n" ++
  "export_filter=\"all_resources\"\n" ++
  "include_filter=\"\"\n" ++
  "exclude_filter=\"\"\n" ++
  "export_path=\"../builds/" ++ platform_name ++ "/game\"\n" ++
  "patch_list=PackedStringArray()"

/-- `ensure_export_presets`: no-op when `export_presets.cfg` exists,
otherwise synthesize the single default preset keyed by the platform
display name. -/
def ensure_export_presets (env : Env) (game_dir : FPath) (fs0 : FS) : XtaskResult :=
  let presets_path := game_dir ++ ["export_presets.cfg"]
  if fs0.pathExists presets_path then
    { fs := fs0, trace := [], err := none }
  else
    let platform_name := (get_platform_export_name env.host).1
    { fs := fs0.writeFile presets_path (export_presets_content platform_name),
      trace := [], err := none }

/-! ### Basic lemmas about the filesystem model -/

theorem FS.files_addDir (fs : FS) (p : FPath) : (fs.addDir p).files = fs.files := by
  simp only [FS.addDir]
  split <;> rfl

theorem FS.files_foldl_addDir (l : List FPath) (fs : FS) :
    (l.foldl (fun acc q => acc.addDir q) fs).files = fs.files := by
  induction l generalizing fs with
  | nil => rfl
  | cons a t ih => simpa [List.foldl_cons, FS.files_addDir] using ih (fs.addDir a)

theorem FS.files_createDirAll (fs : FS) (p : FPath) :
    (fs.createDirAll p).files = fs.files := FS.files_foldl_addDir _ fs

theorem FS.fileExists_createDirAll (fs : FS) (p q : FPath) :
    (fs.createDirAll p).fileExists q = fs.fileExists q := by
  simp [FS.fileExists, FS.files_createDirAll]

theorem FS.readFile_createDirAll (fs : FS) (p q : FPath) :
    (fs.createDirAll p).readFile q = fs.readFile q := by
  simp [FS.readFile, FS.files_createDirAll]

theorem FS.dirExists_addDir_self (fs : FS) (p : FPath) :
    (fs.addDir p).dirExists p = true := by
  simp only [FS.addDir]
  split
  · assumption
  · simp [FS.dirExists]

theorem FS.dirExists_addDir_mono (fs : FS) (p q : FPath) (h : fs.dirExists q = true) :
    (fs.addDir p).dirExists q = true := by
  simp only [FS.addDir]
  split
  · exact h
  · simp only [FS.dirExists] at h ⊢
    simp [List.any_cons, h]

theorem FS.dirExists_foldl_addDir_mono (l : List FPath) (fs : FS) (q : FPath)
    (h : fs.dirExists q = true) :
    (l.foldl (fun acc r => acc.addDir r) fs).dirExists q = true := by
  induction l generalizing fs with
  | nil => exact h
  | cons a t ih => exact ih (fs.addDir a) (FS.dirExists_addDir_mono fs a q h)

theorem FS.dirExists_foldl_addDir_of_mem (l : List FPath) (fs : FS) (q : FPath)
    (h : q ∈ l) :
    (l.foldl (fun acc r => acc.addDir r) fs).dirExists q = true := by
  induction l generalizing fs with
  | nil => cases h
  | cons a t ih =>
    rcases List.mem_cons.mp h with h | h
    · subst h
      exact FS.dirExists_foldl_addDir_mono t (fs.addDir q) q (FS.dirExists_addDir_self fs q)
    · exact ih (fs.addDir a) h

theorem mem_initialSegments_self (p : FPath) : p ∈ initialSegments p := by
  induction p with
  | nil => simp [initialSegments]
  | cons a t ih => simp only [initialSegments, List.mem_cons]; right; exact List.mem_map_of_mem _ ih

theorem FS.dirExists_createDirAll_self (fs : FS) (p : FPath) :
    (fs.createDirAll p).dirExists p = true :=
  FS.dirExists_foldl_addDir_of_mem _ fs p (mem_initialSegments_self p)

theorem FS.fileExists_pathExists (fs : FS) (p : FPath) (h : fs.fileExists p = true) :
    fs.pathExists p = true := by
  simp [FS.pathExists, h]

theorem FS.dirExists_pathExists (fs : FS) (p : FPath) (h : fs.dirExists p = true) :
    fs.pathExists p = true := by
  simp [FS.pathExists, h]

theorem FS.readFile_writeFile_self (fs : FS) (p : FPath) (c : String) :
    (fs.writeFile p c).readFile p = some c := by
  simp [FS.writeFile, FS.readFile, List.find?]

theorem isPrefixOf_self (p : FPath) : p.isPrefixOf p = true :=
  List.isPrefixOf_iff_prefix.mpr (List.prefix_refl p)

theorem FS.fileExists_removeDirAll_of_prefix (fs : FS) (p q : FPath)
    (h : p.isPrefixOf q = true) : (fs.removeDirAll p).fileExists q = false := by
  simp only [FS.removeDirAll, FS.fileExists, List.any_filter]
  simp only [List.any_eq_false]
  intro e _
  by_cases hq : e.1 = q
  · simp [hq, h]
  · simp [hq]

theorem FS.dirExists_removeDirAll_of_prefix (fs : FS) (p q : FPath)
    (h : p.isPrefixOf q = true) : (fs.removeDirAll p).dirExists q = false := by
  simp only [FS.removeDirAll, FS.dirExists, List.any_filter]
  simp only [List.any_eq_false]
  intro d _
  by_cases hq : d = q
  · simp [hq, h]
  · simp [hq]

theorem FS.pathExists_removeDirAll_of_prefix (fs : FS) (p q : FPath)
    (h : p.isPrefixOf q = true) : (fs.removeDirAll p).pathExists q = false := by
  simp [FS.pathExists, FS.fileExists_removeDirAll_of_prefix fs p q h,
    FS.dirExists_removeDirAll_of_prefix fs p q h]

theorem FS.fileExists_removeDirAll_of_not_prefix (fs : FS) (p q : FPath)
    (h : p.isPrefixOf q = false) : (fs.removeDirAll p).fileExists q = fs.fileExists q := by
  have hf : ∀ e : FPath × String, (!(p.isPrefixOf e.1) && (e.1 == q)) = (e.1 == q) := by
    intro e
    by_cases hq : e.1 = q
    · simp [hq, h]
    · simp [hq]
  simp only [FS.removeDirAll, FS.fileExists, List.any_filter, hf]

theorem FS.dirExists_removeDirAll_of_not_prefix (fs : FS) (p q : FPath)
    (h : p.isPrefixOf q = false) : (fs.removeDirAll p).dirExists q = fs.dirExists q := by
  have hf : ∀ d : FPath, (!(p.isPrefixOf d) && (d == q)) = (d == q) := by
    intro d
    by_cases hq : d = q
    · simp [hq, h]
    · simp [hq]
  simp only [FS.removeDirAll, FS.dirExists, List.any_filter, hf]

theorem FS.pathExists_removeDirAll_of_not_prefix (fs : FS) (p q : FPath)
    (h : p.isPrefixOf q = false) : (fs.removeDirAll p).pathExists q = fs.pathExists q := by
  simp [FS.pathExists, FS.fileExists_removeDirAll_of_not_prefix fs p q h,
    FS.dirExists_removeDirAll_of_not_prefix fs p q h]

theorem FS.fileExists_renameDir (fs : FS) (src dst t : FPath)
    (hpre : src.isPrefixOf t = true) (hex : fs.fileExists t = true) :
    (fs.renameDir src dst).fileExists (dst ++ t.drop src.length) = true := by
  simp only [FS.renameDir, FS.fileExists, List.any_map]
  rw [List.any_eq_true]
  rw [FS.fileExists, List.any_eq_true] at hex
  obtain ⟨e, he, heq⟩ := hex
  have ht : e.1 = t := by simpa using heq
  refine ⟨e, he, ?_⟩
  simp [Function.comp, ht, hpre]

theorem FS.dirExists_renameDir (fs : FS) (src dst t : FPath)
    (hpre : src.isPrefixOf t = true) (hex : fs.dirExists t = true) :
    (fs.renameDir src dst).dirExists (dst ++ t.drop src.length) = true := by
  simp only [FS.renameDir, FS.dirExists, List.any_map]
  rw [List.any_eq_true]
  rw [FS.dirExists, List.any_eq_true] at hex
  obtain ⟨d, hd, heq⟩ := hex
  have ht : d = t := by simpa using heq
  refine ⟨d, hd, ?_⟩
  simp [Function.comp, ht, hpre]

theorem FS.pathExists_renameDir_self (fs : FS) (src dst : FPath)
    (h : fs.pathExists src = true) : (fs.renameDir src dst).pathExists dst = true := by
  have hd : dst ++ src.drop src.length = dst := by simp
  rw [FS.pathExists, Bool.or_eq_true] at h
  rcases h with h | h
  · have hf := FS.fileExists_renameDir fs src dst src (isPrefixOf_self src) h
    rw [hd] at hf
    exact FS.fileExists_pathExists _ _ hf
  · have hf := FS.dirExists_renameDir fs src dst src (isPrefixOf_self src) h
    rw [hd] at hf
    exact FS.dirExists_pathExists _ _ hf

theorem FS.dirExists_copyDirContent_mono (fs : FS) (src dst q : FPath)
    (h : fs.dirExists q = true) : (fs.copyDirContent src dst).dirExists q = true := by
  simp only [FS.copyDirContent, FS.dirExists, List.any_append]
  simp only [FS.dirExists] at h
  simp [h]

theorem FS.fileExists_copyDirContent (fs : FS) (src dst t : FPath)
    (hpre : src.isPrefixOf t = true) (hlen : (t.length == src.length) = false)
    (hex : fs.fileExists t = true) :
    (fs.copyDirContent src dst).fileExists (dst ++ t.drop src.length) = true := by
  simp only [FS.copyDirContent, FS.fileExists, List.any_append, List.any_map, List.any_filter]
  rw [Bool.or_eq_true]
  right
  rw [List.any_eq_true]
  rw [FS.fileExists, List.any_eq_true] at hex
  obtain ⟨e, he, heq⟩ := hex
  have ht : e.1 = t := by simpa using heq
  refine ⟨e, he, ?_⟩
  simp [Function.comp, ht, hpre, hlen]

theorem isPrefixOf_append_left (l t : FPath) : l.isPrefixOf (l ++ t) = true :=
  List.isPrefixOf_iff_prefix.mpr (List.prefix_append l t)

theorem length_append_ne (l t : FPath) (h : t ≠ []) :
    ((l ++ t).length == l.length) = false := by
  have ht : t.length ≠ 0 := by
    intro h0
    exact h (List.eq_nil_of_length_eq_zero h0)
  simp only [List.length_append, beq_eq_false_iff_ne, Ne]
  omega

theorem build_output_root_state_files (root : FPath) (fs0 : FS) :
    (build_output_root_state root fs0).files = fs0.files := by
  simp only [build_output_root_state]
  split
  · rfl
  · exact FS.files_createDirAll fs0 _

theorem build_dest_state_files (root : FPath) (fs0 : FS) (od2 : FPath) :
    (build_dest_state root fs0 od2).files = fs0.files := by
  simp only [build_dest_state]
  split
  · exact build_output_root_state_files root fs0
  · rw [FS.files_createDirAll]
    exact build_output_root_state_files root fs0

theorem build_dest_state_fileExists (root : FPath) (fs0 : FS) (od2 p : FPath) :
    (build_dest_state root fs0 od2).fileExists p = fs0.fileExists p := by
  simp [FS.fileExists, build_dest_state_files]

theorem build_dest_state_readFile (root : FPath) (fs0 : FS) (od2 p : FPath) :
    (build_dest_state root fs0 od2).readFile p = fs0.readFile p := by
  simp [FS.readFile, build_dest_state_files]

/-! ### Concrete fixtures used by the witnesses and counterexamples -/

/-- A linux environment whose downloaded archives contain exactly what the
tool expects: the editor binary, and a `templates` folder with one file. -/
def sampleEnv : Env :=
  { host := HostOS.linux, homeDir := ["home"], dataDir := ["data"], dataLocalDir := ["dl"],
    cargoSucceeds := true, renameWorks := true,
    editorArchive := [(["Godot_v4.6-stable_linux.x86_64"], "binblob")],
    templatesArchive := [(["templates", "linux_release.x86_64"], "tpl")] }

/-! ### Claim theorems -/

/-- C9: if the native build tool (cargo) exits with a nonzero status,
`build_and_install` fails immediately with the `Cargo build failed`
diagnostic, before any directory creation, file copy or descriptor
generation: the resulting filesystem is exactly the initial one and the
only effect is the cargo invocation itself. -/
theorem build_cargo_failure (env : Env) (root : FPath) (release : Bool) (fs0 : FS)
    (h : env.cargoSucceeds = false) :
    build_and_install env root release fs0 =
      { fs := fs0,
        trace := [Effect.runProcess (if release then "cargo build --release" else "cargo build")],
        err := some "Cargo build failed" } := by
  simp [build_and_install, h]

/-- Witness for C9: a concrete failing-cargo run leaves the filesystem
untouched and reports the build failure. -/
theorem build_cargo_failure_witness :
    build_and_install { sampleEnv with cargoSucceeds := false } ["r"] false FS.empty =
      { fs := FS.empty,
        trace := [Effect.runProcess "cargo build"],
        err := some "Cargo build failed" } :=
  build_cargo_failure { sampleEnv with cargoSucceeds := false } ["r"] false FS.empty (by decide)

/-- C10: on a host platform that is none of Windows, Linux or macOS,
`build_and_install` (after a successful compile) fails with the
`Unsupported OS` error and writes no file (no artifact copy, no
descriptor), while `get_os_info` maps the same platform to the Linux
tuple. -/
theorem build_unsupported_os (env : Env) (root : FPath) (release : Bool) (fs0 : FS)
    (h1 : env.host ≠ HostOS.windows) (h2 : env.host ≠ HostOS.linux)
    (h3 : env.host ≠ HostOS.macos) (hc : env.cargoSucceeds = true) :
    (build_and_install env root release fs0).err = some "Unsupported OS" ∧
    (build_and_install env root release fs0).fs.files = fs0.files ∧
    get_os_info env.host = ("linux.x86_64.zip", "Godot_v4.6-stable_linux.x86_64") := by
  have hsel : build_selection env.host (root ++ ["game", "bin", "game"]) = none := by
    simp [build_selection, h1, h2, h3]
  refine ⟨?_, ?_, ?_⟩
  · simp [build_and_install, hc, hsel]
  · simp [build_and_install, hc, hsel, build_output_root_state_files]
  · simp [get_os_info, h1, h3]

/-- Witness for C10: a concrete unsupported host (freebsd) bails out with
no file written while the OS-resolution helper yields the Linux tuple. -/
theorem build_unsupported_os_witness :
    (build_and_install { sampleEnv with host := HostOS.other "freebsd" } ["r"] false
        FS.empty).err = some "Unsupported OS" ∧
    (build_and_install { sampleEnv with host := HostOS.other "freebsd" } ["r"] false
        FS.empty).fs.files = FS.empty.files ∧
    get_os_info (HostOS.other "freebsd") =
      ("linux.x86_64.zip", "Godot_v4.6-stable_linux.x86_64") :=
  build_unsupported_os { sampleEnv with host := HostOS.other "freebsd" } ["r"] false FS.empty
    (by decide) (by decide) (by decide) (by decide)

/-- C7: invoking the launch operation when the provisioned engine
executable is absent fails fatally with the message naming the missing
executable and directing the operator to run setup, and the filesystem is
completely untouched (in particular no project-directory descriptor file
is created) and no process is spawned. -/
theorem run_godot_missing_exe (env : Env) (root : FPath) (editor : Bool) (fs0 : FS)
    (h : fs0.pathExists (godot_bin_path env root) = false) :
    run_godot env root editor fs0 =
      { fs := fs0, trace := [],
        err := some "Godot executable not found. Run cargo xtask setup first." } := by
  simp [run_godot, h]

/-- Witness for C7: launching from an empty filesystem fails with the
setup hint and changes nothing. -/
theorem run_godot_missing_exe_witness :
    run_godot sampleEnv ["r"] false FS.empty =
      { fs := FS.empty, trace := [],
        err := some "Godot executable not found. Run cargo xtask setup first." } :=
  run_godot_missing_exe sampleEnv ["r"] false FS.empty (by decide)

/-- C2: when `export_presets.cfg` already exists (with arbitrary content)
`ensure_export_presets` is a complete no-op (same filesystem, no effects,
success); only when the file is absent does it write the single default
preset keyed by the platform display name. -/
theorem ensure_export_presets_frame (env : Env) (game_dir : FPath) (fs0 : FS) :
    (fs0.fileExists (game_dir ++ ["export_presets.cfg"]) = true →
      ensure_export_presets env game_dir fs0 = { fs := fs0, trace := [], err := none }) ∧
    (fs0.pathExists (game_dir ++ ["export_presets.cfg"]) = false →
      ensure_export_presets env game_dir fs0 =
        { fs := fs0.writeFile (game_dir ++ ["export_presets.cfg"])
            (export_presets_content (get_platform_export_name env.host).1),
          trace := [], err := none }) := by
  constructor
  · intro h
    have hp := FS.fileExists_pathExists fs0 _ h
    simp [ensure_export_presets, hp]
  · intro h
    simp [ensure_export_presets, h]

/-- Witness for C2: a pre-seeded custom `export_presets.cfg` is untouched;
from an empty filesystem the default preset for the Linux display name is
written. -/
theorem ensure_export_presets_frame_witness :
    (ensure_export_presets sampleEnv ["g"]
        { files := [(["g", "export_presets.cfg"], "custom")], dirs := [] } =
      { fs := { files := [(["g", "export_presets.cfg"], "custom")], dirs := [] },
        trace := [], err := none }) ∧
    (ensure_export_presets sampleEnv ["g"] FS.empty =
      { fs := FS.empty.writeFile (["g"] ++ ["export_presets.cfg"])
          (export_presets_content (get_platform_export_name sampleEnv.host).1),
        trace := [], err := none }) :=
  ⟨(ensure_export_presets_frame sampleEnv ["g"] _).1 (by decide),
   (ensure_export_presets_frame sampleEnv ["g"] _).2 (by decide)⟩

/-- C6: the OS-resolution helpers are three-branch lookup tables: every
host platform receives exactly one of three fixed tuples, any platform
that is neither Windows nor macOS receives the Linux tuple, and no
platform yields an empty or malformed archive suffix (every suffix is a
nonempty `.zip` name). -/
theorem os_helpers_three_branch (host : HostOS) :
    (get_os_info host = ("win64.exe.zip", "Godot_v4.6-stable_win64.exe") ∨
     get_os_info host = ("macos.universal.zip", "Godot.app/Contents/MacOS/Godot") ∨
     get_os_info host = ("linux.x86_64.zip", "Godot_v4.6-stable_linux.x86_64")) ∧
    (get_platform_export_name host = ("Windows Desktop", ".exe") ∨
     get_platform_export_name host = ("macOS", ".zip") ∨
     get_platform_export_name host = ("Linux", "")) ∧
    (host ≠ HostOS.windows → host ≠ HostOS.macos →
      get_os_info host = ("linux.x86_64.zip", "Godot_v4.6-stable_linux.x86_64") ∧
      get_platform_export_name host = ("Linux", "")) ∧
    (get_os_info host).1 ≠ "" ∧
    strEndsWith (get_os_info host).1 ".zip" = true := by
  cases host with
  | windows => exact ⟨Or.inl rfl, Or.inl rfl, by simp, by decide, by decide⟩
  | macos => exact ⟨Or.inr (Or.inl rfl), Or.inr (Or.inl rfl), by simp, by decide, by decide⟩
  | linux => exact ⟨Or.inr (Or.inr rfl), Or.inr (Or.inr rfl),
      fun _ _ => ⟨rfl, rfl⟩, by decide, by decide⟩
  | other s => exact ⟨Or.inr (Or.inr rfl), Or.inr (Or.inr rfl),
      fun _ _ => ⟨rfl, rfl⟩,
      show "linux.x86_64.zip" ≠ "" by decide,
      show strEndsWith "linux.x86_64.zip" ".zip" = true by decide⟩

/-- Witness for C6: an unrecognized platform receives the Linux tuples. -/
theorem os_helpers_three_branch_witness :
    get_os_info (HostOS.other "plan9") = ("linux.x86_64.zip", "Godot_v4.6-stable_linux.x86_64") ∧
    get_platform_export_name (HostOS.other "plan9") = ("Linux", "") :=
  (os_helpers_three_branch (HostOS.other "plan9")).2.2.1 (by decide) (by decide)

theorem FS.dirExists_addDir_eq (fs : FS) (p q : FPath) :
    (fs.addDir p).dirExists q = (fs.dirExists q || p == q) := by
  simp only [FS.addDir]
  split
  · rename_i hd
    by_cases hpq : p = q
    · subst hpq
      simp [hd]
    · simp [hpq]
  · simp [FS.dirExists, List.any_cons, Bool.or_comm]

theorem FS.dirExists_foldl_addDir_eq (l : List FPath) (fs : FS) (q : FPath) :
    ((l.foldl (fun acc r => acc.addDir r) fs).dirExists q) =
      (fs.dirExists q || l.any (fun r => r == q)) := by
  induction l generalizing fs with
  | nil => simp
  | cons a t ih => simp [List.foldl_cons, ih, FS.dirExists_addDir_eq, Bool.or_assoc]

theorem length_le_of_mem_initialSegments (q p : FPath) (h : q ∈ initialSegments p) :
    q.length ≤ p.length := by
  induction p generalizing q with
  | nil =>
    simp only [initialSegments, List.mem_singleton] at h
    subst h
    simp
  | cons a t ih =>
    simp only [initialSegments, List.mem_cons, List.mem_map] at h
    rcases h with h | ⟨r, hr, hq⟩
    · subst h
      simp
    · subst hq
      simpa using ih r hr

theorem FS.dirExists_createDirAll_of_longer (fs : FS) (p q : FPath)
    (h : p.length < q.length) : (fs.createDirAll p).dirExists q = fs.dirExists q := by
  rw [FS.createDirAll, FS.dirExists_foldl_addDir_eq]
  have hz : (initialSegments p).any (fun r => r == q) = false := by
    rw [List.any_eq_false]
    intro r hr hbeq
    have hrq : r = q := by simpa using hbeq
    subst hrq
    have hle := length_le_of_mem_initialSegments r p hr
    omega
  simp [hz]

theorem FS.pathExists_createDirAll_of_longer (fs : FS) (p q : FPath)
    (h : p.length < q.length) : (fs.createDirAll p).pathExists q = fs.pathExists q := by
  simp [FS.pathExists, FS.fileExists_createDirAll,
    FS.dirExists_createDirAll_of_longer fs p q h]

theorem run_game_dir_state_files (root : FPath) (fs0 : FS) :
    (run_game_dir_state root fs0).files = fs0.files := by
  simp only [run_game_dir_state]
  split
  · rfl
  · exact FS.files_createDirAll fs0 _

theorem run_game_dir_state_pathExists_project (root : FPath) (fs0 : FS) :
    (run_game_dir_state root fs0).pathExists (root ++ ["game", "project.godot"]) =
      fs0.pathExists (root ++ ["game", "project.godot"]) := by
  simp only [run_game_dir_state]
  split
  · rfl
  · apply FS.pathExists_createDirAll_of_longer
    simp

/-- C3: when `project.godot` already exists (with arbitrary content) the
launch operation leaves the file table untouched (no file written or
changed); only when the project file is absent does it write the minimal
fixed default content. -/
theorem run_godot_project_file_frame (env : Env) (root : FPath) (editor : Bool) (fs0 : FS)
    (hexe : fs0.pathExists (godot_bin_path env root) = true) :
    (fs0.fileExists (root ++ ["game", "project.godot"]) = true →
      (run_godot env root editor fs0).fs.files = fs0.files) ∧
    (fs0.pathExists (root ++ ["game", "project.godot"]) = false →
      (run_godot env root editor fs0).fs.readFile (root ++ ["game", "project.godot"]) =
        some project_godot_content) := by
  constructor
  · intro h
    have h1 : (run_game_dir_state root fs0).pathExists
        (root ++ ["game", "project.godot"]) = true := by
      apply FS.fileExists_pathExists
      simp only [FS.fileExists, run_game_dir_state_files]
      simpa only [FS.fileExists] using h
    simp [run_godot, hexe, h1, run_game_dir_state_files]
  · intro h
    have h1 : (run_game_dir_state root fs0).pathExists
        (root ++ ["game", "project.godot"]) = false := by
      rw [run_game_dir_state_pathExists_project]
      exact h
    simp [run_godot, hexe, h1, FS.readFile_writeFile_self, List.append_assoc]

/-- Witness for C3: with the executable present, a pre-seeded custom
`project.godot` survives a launch unchanged, and from a state without it
the default project file appears. -/
theorem run_godot_project_file_frame_witness :
    ((run_godot sampleEnv ["r"]
        false
        { files := [(["r", "game", "project.godot"], "custom project"),
                    (["r", ".godot_bin", "Godot_v4.6-stable_linux.x86_64"], "binblob")],
          dirs := [] }).fs.files =
      [(["r", "game", "project.godot"], "custom project"),
       (["r", ".godot_bin", "Godot_v4.6-stable_linux.x86_64"], "binblob")]) ∧
    ((run_godot sampleEnv ["r"]
        false
        { files := [(["r", ".godot_bin", "Godot_v4.6-stable_linux.x86_64"], "binblob")],
          dirs := [] }).fs.readFile (["r"] ++ ["game", "project.godot"]) =
      some project_godot_content) :=
  ⟨(run_godot_project_file_frame sampleEnv ["r"] false _ (by decide)).1 (by decide),
   (run_godot_project_file_frame sampleEnv ["r"] false _ (by decide)).2 (by decide)⟩

set_option maxRecDepth 8192 in
/-- C4: every successful `build_and_install` run rewrites the
`.gdextension` descriptor: whatever the file held before, afterwards it
holds exactly the fixed manifest, whose text contains the relative
library path lines for linux, macos and windows in both debug and release
-- independently of the host platform that performed the build. -/
theorem build_descriptor_overwrite (env : Env) (root : FPath) (release : Bool) (fs0 : FS)
    (ext crate_name : String) (output_dir2 : FPath)
    (hsel : build_selection env.host (root ++ ["game", "bin", "game"]) =
      some (ext, crate_name, output_dir2))
    (hc : env.cargoSucceeds = true)
    (hsrc : fs0.fileExists
        (root ++ ["target", if release then "release" else "debug",
          crate_name ++ "." ++ ext]) = true) :
    (build_and_install env root release fs0).err = none ∧
    (build_and_install env root release fs0).fs.readFile
        (root ++ ["game", "game.gdextension"]) = some (gdextension_content "game") ∧
    strHasSub (gdextension_content "game")
      "linux.debug.x86_64 = \"res://bin/game/linux/libgame.so\"" = true ∧
    strHasSub (gdextension_content "game")
      "linux.release.x86_64 = \"res://bin/game/linux/libgame.so\"" = true ∧
    strHasSub (gdextension_content "game")
      "macos.debug.arm64 = \"res://bin/game/macos/arm64/libgame.dylib\"" = true ∧
    strHasSub (gdextension_content "game")
      "macos.release.arm64 = \"res://bin/game/macos/arm64/libgame.dylib\"" = true ∧
    strHasSub (gdextension_content "game")
      "windows.debug.x86_64 = \"res://bin/game/windows/game.dll\"" = true ∧
    strHasSub (gdextension_content "game")
      "windows.release.x86_64 = \"res://bin/game/windows/game.dll\"" = true := by
  have hsrc2 : (build_dest_state root fs0 output_dir2).pathExists
      (root ++ ["target", if release then "release" else "debug",
        crate_name ++ "." ++ ext]) = true := by
    apply FS.fileExists_pathExists
    rw [build_dest_state_fileExists]
    exact hsrc
  have hgd : ("game" ++ ".gdextension") = "game.gdextension" := rfl
  refine ⟨?_, ?_, by decide, by decide, by decide, by decide, by decide, by decide⟩
  · simp [build_and_install, hc, hsel, hsrc2]
  · simp [build_and_install, hc, hsel, hsrc2, generate_gdextension_file, hgd,
      FS.readFile_writeFile_self, List.append_assoc]

/-- Witness for C4: a debug build on linux with the artifact present and a
stale descriptor on disk succeeds and the descriptor afterwards holds
exactly the fixed manifest. -/
theorem build_descriptor_overwrite_witness :
    (build_and_install sampleEnv ["r"] false
        { files := [(["r", "target", "debug", "libgame.so"], "ELF"),
                    (["r", "game", "game.gdextension"], "stale descriptor")],
          dirs := [] }).err = none ∧
    (build_and_install sampleEnv ["r"] false
        { files := [(["r", "target", "debug", "libgame.so"], "ELF"),
                    (["r", "game", "game.gdextension"], "stale descriptor")],
          dirs := [] }).fs.readFile
        (["r", "game", "game.gdextension"]) = some (gdextension_content "game") :=
  ⟨(build_descriptor_overwrite sampleEnv ["r"] false _ "so" "libgame"
      ["r", "game", "bin", "game", "linux"] (by decide) (by decide) (by decide)).1,
   (build_descriptor_overwrite sampleEnv ["r"] false _ "so" "libgame"
      ["r", "game", "bin", "game", "linux"] (by decide) (by decide) (by decide)).2.1⟩

/-- C5: if cargo exits successfully but the expected compiled artifact is
absent at the computed source path, `build_and_install` fails with an
error message naming that path, and writes no file at all (in particular
it does not write the descriptor). -/
theorem build_missing_artifact (env : Env) (root : FPath) (release : Bool) (fs0 : FS)
    (ext crate_name : String) (output_dir2 : FPath)
    (hsel : build_selection env.host (root ++ ["game", "bin", "game"]) =
      some (ext, crate_name, output_dir2))
    (hc : env.cargoSucceeds = true)
    (hsrc : (build_dest_state root fs0 output_dir2).pathExists
        (root ++ ["target", if release then "release" else "debug",
          crate_name ++ "." ++ ext]) = false) :
    (build_and_install env root release fs0).err =
      some ("Failed to find artifact: " ++ pathToString
        (root ++ ["target", if release then "release" else "debug",
          crate_name ++ "." ++ ext])) ∧
    (build_and_install env root release fs0).fs.files = fs0.files := by
  constructor
  · simp [build_and_install, hc, hsel, hsrc]
  · simp [build_and_install, hc, hsel, hsrc, build_dest_state_files]

/-- Witness for C5: from an empty filesystem (cargo reporting success but
producing nothing at the expected location) the build fails naming the
missing artifact path and writes nothing. -/
theorem build_missing_artifact_witness :
    (build_and_install sampleEnv ["r"] false FS.empty).err =
      some ("Failed to find artifact: " ++ pathToString ["r", "target", "debug", "libgame.so"]) ∧
    (build_and_install sampleEnv ["r"] false FS.empty).fs.files = FS.empty.files :=
  build_missing_artifact sampleEnv ["r"] false FS.empty "so" "libgame"
    ["r", "game", "bin", "game", "linux"] (by decide) (by decide) (by decide)

/-- Counterexample for C1 as stated: run setup from an empty filesystem;
afterwards both the engine executable and the templates version directory
exist, yet a second setup run still performs a network request (it
unconditionally re-downloads the editor archive), so the second run is
neither request-free nor a no-op. -/
theorem setup_second_run_not_zero_requests :
    (setup_godot sampleEnv ["r"] FS.empty).err = none ∧
    (setup_godot sampleEnv ["r"] FS.empty).fs.pathExists
      (godot_bin_path sampleEnv ["r"]) = true ∧
    (setup_godot sampleEnv ["r"] FS.empty).fs.pathExists
      (templates_version_dir sampleEnv) = true ∧
    ¬ ((setup_godot sampleEnv ["r"]
          (setup_godot sampleEnv ["r"] FS.empty).fs).trace.countP Effect.isHttp = 0) := by
  decide

/-- C1 (amended): when the engine executable is found after extraction and
the templates version directory already exists, `setup_godot` succeeds,
performs exactly one network request (the unconditional editor
re-download) -- not zero -- and past the editor step it is a no-op with a
message: the filesystem is exactly what the editor extraction left. -/
theorem setup_second_run_single_request (env : Env) (root : FPath) (fs0 : FS)
    (hbin : (setup_editor_step env root fs0).pathExists (godot_bin_path env root) = true)
    (hver : (setup_editor_step env root fs0).pathExists (templates_version_dir env) = true) :
    (setup_godot env root fs0).err = none ∧
    (setup_godot env root fs0).fs = setup_editor_step env root fs0 ∧
    (setup_godot env root fs0).trace.countP Effect.isHttp = 1 := by
  refine ⟨?_, ?_, ?_⟩
  · simp [setup_godot, hbin, hver]
  · simp [setup_godot, hbin, hver]
  · simp only [setup_godot, hbin, hver]
    by_cases hw : env.host = HostOS.windows <;> by_cases hm : env.host = HostOS.macos <;>
      simp [hw, hm, List.countP_append, List.countP_cons, Effect.isHttp]

/-- Witness for C1 (amended): the second of two concrete setup runs ends
successfully with exactly one network request. -/
theorem setup_second_run_single_request_witness :
    (setup_godot sampleEnv ["r"] (setup_godot sampleEnv ["r"] FS.empty).fs).err = none ∧
    (setup_godot sampleEnv ["r"] (setup_godot sampleEnv ["r"] FS.empty).fs).trace.countP
      Effect.isHttp = 1 :=
  ⟨(setup_second_run_single_request sampleEnv ["r"] _ (by decide) (by decide)).1,
   (setup_second_run_single_request sampleEnv ["r"] _ (by decide) (by decide)).2.2⟩

/-- C8: during template installation (version directory absent, archive
containing a `templates` folder with a file in it), whether the rename of
the extracted folder into the version directory succeeds or fails and the
recursive-copy fallback runs instead, setup ends successfully with the
version directory present, the archive file re-rooted inside it, and the
scratch extraction directory removed. -/
theorem setup_template_install_fallback (env : Env) (root : FPath) (fs0 : FS) (rest : FPath)
    (hbin : (setup_editor_step env root fs0).pathExists (godot_bin_path env root) = true)
    (hver : (setup_editor_step env root fs0).pathExists (templates_version_dir env) = false)
    (hfold : (setup_templates_stage env root (setup_editor_step env root fs0)).pathExists
        (tmp_templates_dir root ++ ["templates"]) = true)
    (hfile : (setup_templates_stage env root (setup_editor_step env root fs0)).fileExists
        (tmp_templates_dir root ++ ["templates"] ++ rest) = true)
    (hrest : rest ≠ [])
    (hsep : (tmp_templates_dir root).isPrefixOf (templates_version_dir env) = false)
    (hsep2 : (tmp_templates_dir root).isPrefixOf (templates_version_dir env ++ rest) = false) :
    (setup_godot env root fs0).err = none ∧
    (setup_godot env root fs0).fs.pathExists (templates_version_dir env) = true ∧
    (setup_godot env root fs0).fs.fileExists (templates_version_dir env ++ rest) = true ∧
    (setup_godot env root fs0).fs.pathExists (tmp_templates_dir root) = false := by
  have hpre : (tmp_templates_dir root ++ ["templates"]).isPrefixOf
      (tmp_templates_dir root ++ ["templates"] ++ rest) = true :=
    isPrefixOf_append_left _ rest
  have hdrop : (tmp_templates_dir root ++ ["templates"] ++ rest).drop
      (tmp_templates_dir root ++ ["templates"]).length = rest :=
    List.drop_left _ rest
  refine ⟨?_, ?_, ?_, ?_⟩
  · simp [setup_godot, hbin, hver, hfold]
  · simp only [setup_godot, hbin, hver, hfold, Bool.true_eq_false, Bool.false_eq_true, if_false]
    rw [FS.pathExists_removeDirAll_of_not_prefix _ _ _ hsep]
    by_cases hr : env.renameWorks = true
    · simp only [hr, if_true]
      exact FS.pathExists_renameDir_self _ _ _ hfold
    · simp only [hr, if_false]
      apply FS.dirExists_pathExists
      apply FS.dirExists_copyDirContent_mono
      exact FS.dirExists_createDirAll_self _ _
  · simp only [setup_godot, hbin, hver, hfold, Bool.true_eq_false, Bool.false_eq_true, if_false]
    rw [FS.fileExists_removeDirAll_of_not_prefix _ _ _ hsep2]
    by_cases hr : env.renameWorks = true
    · simp only [hr, if_true]
      have h2 := FS.fileExists_renameDir
        (setup_templates_stage env root (setup_editor_step env root fs0))
        (tmp_templates_dir root ++ ["templates"]) (templates_version_dir env)
        (tmp_templates_dir root ++ ["templates"] ++ rest) hpre hfile
      rw [hdrop] at h2
      exact h2
    · simp only [hr, if_false]
      have h1 : ((setup_templates_stage env root (setup_editor_step env root fs0)).createDirAll
          (templates_version_dir env)).fileExists
          (tmp_templates_dir root ++ ["templates"] ++ rest) = true := by
        rw [FS.fileExists_createDirAll]
        exact hfile
      have hlen : ((tmp_templates_dir root ++ ["templates"] ++ rest).length ==
          (tmp_templates_dir root ++ ["templates"]).length) = false :=
        length_append_ne _ rest hrest
      have h2 := FS.fileExists_copyDirContent
        ((setup_templates_stage env root (setup_editor_step env root fs0)).createDirAll
          (templates_version_dir env))
        (tmp_templates_dir root ++ ["templates"]) (templates_version_dir env)
        (tmp_templates_dir root ++ ["templates"] ++ rest) hpre hlen h1
      rw [hdrop] at h2
      exact h2
  · simp only [setup_godot, hbin, hver, hfold, Bool.true_eq_false, Bool.false_eq_true, if_false]
    exact FS.pathExists_removeDirAll_of_prefix _ _ _ (isPrefixOf_self _)

/-- Witness for C8: a concrete install in which the rename fails and the
recursive-copy fallback runs: setup succeeds, the version directory holds
the template file, and the scratch directory is gone. -/
theorem setup_template_install_fallback_witness :
    (setup_godot { sampleEnv with renameWorks := false } ["r"] FS.empty).err = none ∧
    (setup_godot { sampleEnv with renameWorks := false } ["r"] FS.empty).fs.pathExists
      (templates_version_dir { sampleEnv with renameWorks := false }) = true ∧
    (setup_godot { sampleEnv with renameWorks := false } ["r"] FS.empty).fs.fileExists
      (templates_version_dir { sampleEnv with renameWorks := false } ++
        ["linux_release.x86_64"]) = true ∧
    (setup_godot { sampleEnv with renameWorks := false } ["r"] FS.empty).fs.pathExists
      (tmp_templates_dir ["r"]) = false :=
  setup_template_install_fallback { sampleEnv with renameWorks := false } ["r"] FS.empty
    ["linux_release.x86_64"] (by decide) (by decide) (by decide) (by decide) (by decide)
    (by decide) (by decide)

end Xtask
